/-
Verification of the urec-tracker occupancy counter against its design
specification.

The development shallowly embeds the Python sources:
  * `database.py`    (class DynamoDBManager)  — `DynamoDBManager.*` below
  * `capacity_updater.py` (the Lambda updater) — `CapacityUpdater.*` below
  * `main.py`        (FastAPI endpoints)       — `Main.*` below

The DynamoDB table is modelled as an association list from the partition
key string (`"AREA#" ++ area_id`; the sort key is always `"METADATA"` in
this repository, so it is dropped) to an item whose attributes are all
optional, exactly as DynamoDB items are schemaless.  `update_item` is an
upsert in DynamoDB ("Edits an existing item's attributes, or adds a new
item to the table if it does not exist"); the model reproduces this.
Wall-clock timestamps (`datetime.utcnow().isoformat()`) are passed in as
explicit string arguments.
-/
import Mathlib

/-- A DynamoDB item: every attribute may be absent.  The attributes are
those written by the repository (`database.py` create_area and the two
UpdateExpressions, plus the Lambda's `update_count` counter). -/
structure Item where
  area_id : Option String
  name : Option String
  current_count : Option Int
  max_capacity : Option Int
  is_open : Option Bool
  last_updated : Option String
  created_at : Option String
  update_count : Option Int
deriving Repr, DecidableEq

/-- The freshly created item of an `update_item` upsert on a missing key:
only the key attributes exist, every other attribute is absent. -/
def emptyItem : Item := ⟨none, none, none, none, none, none, none, none⟩

/-- The table, keyed by partition key (sort key is constantly METADATA). -/
def Table := List (String × Item)

/-- `pk = f"AREA#{area_id}"` (database.py line 155 and elsewhere). -/
def pkOf (area_id : String) : String := "AREA#" ++ area_id

/-- `table.get_item(Key=...)`: lookup by partition key. -/
def lookupItem : Table → String → Option Item
  | [], _ => none
  | (k2, it) :: rest, k => if k = k2 then some it else lookupItem rest k

/-- `table.put_item(Item=item)`: unconditional write (DynamoDB PutItem
replaces any existing item with the same key). -/
def putItem : Table → String → Item → Table
  | [], k, it => [(k, it)]
  | (k2, it2) :: rest, k, it =>
      if k = k2 then (k, it) :: rest else (k2, it2) :: putItem rest k it

/-- `table.update_item(Key=..., UpdateExpression=..., ReturnValues=ALL_NEW)`:
applies the update expression `f` to the existing item, or to a fresh item
when the key is absent (DynamoDB UpdateItem is an upsert), and returns the
new table together with the ALL_NEW attributes. -/
def updateItem (t : Table) (k : String) (f : Item → Item) : Table × Item :=
  let newIt := f ((lookupItem t k).getD emptyItem)
  (putItem t k newIt, newIt)

/-- UpdateExpression
`SET current_count = if_not_exists(current_count, :zero) + :inc, last_updated = :timestamp`
(database.py lines 219-227). -/
def exprAddCount (inc : Int) (now : String) (it : Item) : Item :=
  { it with current_count := some (it.current_count.getD 0 + inc),
            last_updated := some now }

/-- UpdateExpression
`SET current_count = if_not_exists(current_count, :zero) + :inc, last_updated = :timestamp ADD update_count :one`
(capacity_updater.py lines 142-152; ADD on a missing attribute starts from 0). -/
def exprAddCountBumpSeq (inc : Int) (now : String) (it : Item) : Item :=
  { it with current_count := some (it.current_count.getD 0 + inc),
            last_updated := some now,
            update_count := some (it.update_count.getD 0 + 1) }

/-- UpdateExpression `SET current_count = :count, last_updated = :timestamp`
(database.py lines 286-290). -/
def exprSetCount (v : Int) (now : String) (it : Item) : Item :=
  { it with current_count := some v, last_updated := some now }

/-- UpdateExpression `SET current_count = :zero` of the Lambda's corrective
write (capacity_updater.py lines 161-166). -/
def exprZeroCount (it : Item) : Item :=
  { it with current_count := some 0 }

/-- The pydantic response model `AreaCapacity` (models.py lines 13-64). -/
structure AreaCapacity where
  area_id : String
  name : String
  current_count : Int
  max_capacity : Int
  is_open : Bool
  last_updated : String
deriving Repr, DecidableEq

/-- The pydantic constructor: field constraints `current_count >= 0` and
`max_capacity > 0` (models.py lines 35-45) raise a ValidationError when
violated. -/
def AreaCapacity.make (aid nm : String) (cc mc : Int) (op : Bool) (lu : String) :
    Except String AreaCapacity :=
  if cc < 0 then Except.error "ValidationError: current_count"
  else if mc ≤ 0 then Except.error "ValidationError: max_capacity"
  else Except.ok ⟨aid, nm, cc, mc, op, lu⟩

/-- `item['attr']` on a dict: KeyError when the attribute is absent. -/
def getAttr {α : Type} (msg : String) : Option α → Except String α
  | none => Except.error msg
  | some a => Except.ok a

/-- The `AreaCapacity(...)` construction from a raw DynamoDB item used by
get_area / get_all_areas / update_capacity / set_capacity in database.py:
`item['area_id']`, `item['name']`, `int(item['current_count'])`,
`int(item['max_capacity'])` raise KeyError when absent (in that evaluation
order); `item.get('is_open', True)` and `item.get('last_updated', utcnow)`
default. -/
def buildAreaCapacity (it : Item) (now : String) : Except String AreaCapacity := do
  let aid ← getAttr "KeyError: area_id" it.area_id
  let nm ← getAttr "KeyError: name" it.name
  let cc ← getAttr "KeyError: current_count" it.current_count
  let mc ← getAttr "KeyError: max_capacity" it.max_capacity
  AreaCapacity.make aid nm cc mc (it.is_open.getD true) (it.last_updated.getD now)

/-- Result of a DynamoDBManager method: `ok` (returned a value), `notFound`
(returned None), or `error` (raised an exception). -/
inductive DbResult (α : Type) where
  | ok : α → DbResult α
  | notFound : DbResult α
  | error : String → DbResult α
deriving Repr, DecidableEq

def DbResult.isOk {α : Type} : DbResult α → Bool
  | .ok _ => true
  | _ => false

def Except.toDbResult {α : Type} : Except String α → DbResult α
  | .ok a => DbResult.ok a
  | .error e => DbResult.error e

/-- `DynamoDBManager.get_area` (database.py lines 136-184): get_item, None
when absent, otherwise the `AreaCapacity(...)` construction (a raised
KeyError/ValidationError propagates). -/
def DynamoDBManager.get_area (t : Table) (area_id now : String) : DbResult AreaCapacity :=
  match lookupItem t (pkOf area_id) with
  | none => DbResult.notFound
  | some it => (buildAreaCapacity it now).toDbResult

/-- `DynamoDBManager.get_all_areas` (database.py lines 89-134): scan all
METADATA items; items that fail to parse are skipped (`continue`). -/
def DynamoDBManager.get_all_areas (t : Table) (now : String) : List AreaCapacity :=
  t.filterMap fun kv => (buildAreaCapacity kv.2 now).toOption

/-- `DynamoDBManager.set_capacity` (database.py lines 260-315): update_item
with `:count = max(0, count)`, then the `AreaCapacity(...)` construction
from the ALL_NEW attributes.  The `if not item` branch is dead: a
successful update with ReturnValues=ALL_NEW always returns attributes.
Returns the post-state table together with the outcome. -/
def DynamoDBManager.set_capacity (t : Table) (area_id : String) (count : Int)
    (now : String) : Table × DbResult AreaCapacity :=
  let r := updateItem t (pkOf area_id) (exprSetCount (max 0 count) now)
  (r.1, (buildAreaCapacity r.2 now).toDbResult)

/-- `DynamoDBManager.update_capacity` (database.py lines 186-258):
increment is `1 if action == 'enter' else -1`; atomic update_item (an
upsert); the `if not item` branch is dead; if the new count is negative,
a second corrective `set_capacity(area_id, 0)` write, then the local
dict's count is patched to 0; finally the `AreaCapacity(...)` construction
(raised KeyError propagates, with the table mutations already committed). -/
def DynamoDBManager.update_capacity (t : Table) (area_id action : String)
    (now now2 : String) : Table × DbResult AreaCapacity :=
  let increment : Int := if action = "enter" then 1 else -1
  let r := updateItem t (pkOf area_id) (exprAddCount increment now)
  if r.2.current_count.getD 0 < 0 then
    let s := DynamoDBManager.set_capacity r.1 area_id 0 now2
    (s.1, match s.2 with
          | DbResult.ok _ =>
              (buildAreaCapacity { r.2 with current_count := some 0 } now2).toDbResult
          | DbResult.notFound => DbResult.notFound
          | DbResult.error e => DbResult.error e)
  else
    (r.1, (buildAreaCapacity r.2 now).toDbResult)

/-- `DynamoDBManager.create_area` (database.py lines 317-379): an
unconditional put_item of the full metadata item with `current_count: 0`
(PutItem replaces any existing item — there is no condition expression),
then the `AreaCapacity(...)` construction of the return value. -/
def DynamoDBManager.create_area (t : Table) (area_id nm : String)
    (max_capacity : Int) (is_open : Bool) (now : String) :
    Table × Except String AreaCapacity :=
  let it : Item := ⟨some area_id, some nm, some 0, some max_capacity,
                    some is_open, some now, some now, none⟩
  (putItem t (pkOf area_id) it,
   AreaCapacity.make area_id nm 0 max_capacity is_open now)

/-- `update_capacity` of the Lambda updater (capacity_updater.py lines
111-174): `increment = count if action == 'enter' else -count`; atomic
update_item with the `ADD update_count :one` clause; if the returned count
is negative, a second corrective update_item `SET current_count = :zero`
whose ALL_NEW attributes replace the local dict.  Returns the post-state
table and the returned item dict. -/
def CapacityUpdater.update_capacity (t : Table) (area_id action : String)
    (count : Int) (now : String) : Table × Item :=
  let increment : Int := if action = "enter" then count else -count
  let r := updateItem t (pkOf area_id) (exprAddCountBumpSeq increment now)
  if r.2.current_count.getD 0 < 0 then
    updateItem r.1 (pkOf area_id) exprZeroCount
  else
    r

/-- The stored occupancy count of an area: the `current_count` attribute of
the item at the area's key, when both exist. -/
def storedCount (t : Table) (area_id : String) : Option Int :=
  (lookupItem t (pkOf area_id)).bind Item.current_count

/-- The stored `update_count` diagnostic counter of an area. -/
def storedSeq (t : Table) (area_id : String) : Option Int :=
  (lookupItem t (pkOf area_id)).bind Item.update_count

/-- The pydantic request model `UpdateCapacityRequest` (models.py lines
123-161); pydantic already enforces `1 <= count <= 10` and
`action in {enter, exit}` on requests that reach the endpoint body. -/
structure UpdateCapacityRequest where
  area_id : String
  action : String
  count : Int
  timestamp : Option String
deriving Repr, DecidableEq

/-- Outcome of a FastAPI endpoint: 200 payload, or an HTTPException with
status 400 / 404 / 500. -/
inductive ApiResult (α : Type) where
  | ok : α → ApiResult α
  | badRequest : String → ApiResult α
  | notFound : String → ApiResult α
  | serverError : String → ApiResult α
deriving Repr, DecidableEq

/-- Response dict of `POST /api/reset/{area_id}` (main.py lines 293-298). -/
structure ResetResponse where
  success : Bool
  area_id : String
  new_count : Int
  timestamp : String
deriving Repr, DecidableEq

/-- Response model `CapacityResponse` (models.py lines 79-96). -/
structure CapacityResponse where
  timestamp : String
  areas : List AreaCapacity
deriving Repr, DecidableEq

/-- `POST /api/update` (main.py lines 204-262): reject an action outside
{enter, exit} with 400; call `db.update_capacity(area_id, action)` — note
that `request.count` is never passed on; 404 when the manager returned
None; otherwise a dict whose `new_count` is the stored
`updated_area.current_count`; a raised exception becomes a 500. -/
def Main.update_capacity (t : Table) (req : UpdateCapacityRequest)
    (now now2 : String) : Table × ApiResult Int :=
  if req.action ∉ (["enter", "exit"] : List String) then
    (t, ApiResult.badRequest "Action must be enter or exit")
  else
    let r := DynamoDBManager.update_capacity t req.area_id req.action now now2
    (r.1, match r.2 with
          | DbResult.ok area => ApiResult.ok area.current_count
          | DbResult.notFound => ApiResult.notFound "Area not found"
          | DbResult.error e => ApiResult.serverError e)

/-- `POST /api/reset/{area_id}` (main.py lines 265-307): call
`db.set_capacity(area_id, count)`; 404 when it returned None; otherwise a
response whose `new_count` field is the *requested* `count`, not the
stored value; a raised exception becomes a 500. -/
def Main.reset_area_capacity (t : Table) (area_id : String) (count : Int)
    (now now2 : String) : Table × ApiResult ResetResponse :=
  let r := DynamoDBManager.set_capacity t area_id count now
  (r.1, match r.2 with
        | DbResult.ok _ => ApiResult.ok ⟨true, area_id, count, now2⟩
        | DbResult.notFound => ApiResult.notFound "Area not found"
        | DbResult.error e => ApiResult.serverError e)

/-- `get_mock_capacity_data` (main.py lines 310-369): the fixed fabricated
list of six areas with hard-coded counts. -/
def Main.get_mock_capacity_data (now : String) : List AreaCapacity :=
  [⟨"weight-room", "Weight Room", 45, 100, true, now⟩,
   ⟨"cardio", "Cardio Area", 32, 60, true, now⟩,
   ⟨"track", "Indoor Track", 18, 50, true, now⟩,
   ⟨"pool", "Swimming Pool", 12, 40, true, now⟩,
   ⟨"basketball", "Basketball Courts", 24, 30, true, now⟩,
   ⟨"climbing", "Climbing Wall", 8, 15, true, now⟩]

/-- `GET /api/capacity` (main.py lines 125-160): fetch all areas; when the
list is empty, substitute the mock data. -/
def Main.get_all_capacity (t : Table) (nowDb nowMock : String) : CapacityResponse :=
  let areas := DynamoDBManager.get_all_areas t nowDb
  ⟨nowMock, if areas.isEmpty then Main.get_mock_capacity_data nowMock else areas⟩

/-- `GET /api/capacity/{area_id}` (main.py lines 163-201): 404 when the
manager returned None, 500 on a raised exception. -/
def Main.get_area_capacity (t : Table) (area_id now : String) : ApiResult AreaCapacity :=
  match DynamoDBManager.get_area t area_id now with
  | DbResult.ok a => ApiResult.ok a
  | DbResult.notFound => ApiResult.notFound "Area not found"
  | DbResult.error e => ApiResult.serverError e

/-- One call of the Counter Core on a fixed area: an `apply` (the Lambda
updater, the general-delta entry point) or a `set` (the admin overwrite). -/
inductive CoreOp where
  | applyOp : String → Int → CoreOp
  | setOp : Int → CoreOp
deriving Repr, DecidableEq

/-- The table after one completed Core call on `area`. -/
def runOp (area now : String) (t : Table) : CoreOp → Table
  | CoreOp.applyOp action count => (CapacityUpdater.update_capacity t area action count now).1
  | CoreOp.setOp v => (DynamoDBManager.set_capacity t area v now).1

/-- The table after a sequence of completed Core calls on `area`. -/
def runOps (area now : String) (t : Table) (ops : List CoreOp) : Table :=
  ops.foldl (runOp area now) t

/-- State of one in-flight Lambda `apply` in the concurrency model:
it has either not yet executed its atomic update_item, or it has executed
it and observed the returned `current_count` (on which its conditional
corrective write will branch). -/
inductive ProcState where
  | notStarted : Int → ProcState
  | added : Int → ProcState
deriving Repr, DecidableEq

/-- A concurrent system state: the shared table plus the in-flight calls. -/
structure ConcState where
  table : Table
  procs : List ProcState

/-- Interleaving semantics of concurrent Lambda `apply` calls on one area
(capacity_updater.py lines 137-167).  Each call is two atomic DynamoDB
operations: `start` is its update_item with the add-and-bump expression
(atomic, returns ALL_NEW, whose `current_count` the call observes), and a
call that observed a non-negative count finishes without writing
(`finishOk`) while one that observed a negative count performs the
separate corrective `SET current_count = :zero` write (`finishClamp`).
Any number of calls interleave at these two atomic points. -/
inductive CStep (area now : String) : ConcState → ConcState → Prop where
  | start : ∀ (t : Table) (ps1 ps2 : List ProcState) (d : Int),
      CStep area now
        ⟨t, ps1 ++ ProcState.notStarted d :: ps2⟩
        ⟨(updateItem t (pkOf area) (exprAddCountBumpSeq d now)).1,
         ps1 ++ ProcState.added
           ((updateItem t (pkOf area) (exprAddCountBumpSeq d now)).2.current_count.getD 0) :: ps2⟩
  | finishOk : ∀ (t : Table) (ps1 : List ProcState) (v : Int) (ps2 : List ProcState),
      0 ≤ v →
      CStep area now ⟨t, ps1 ++ ProcState.added v :: ps2⟩ ⟨t, ps1 ++ ps2⟩
  | finishClamp : ∀ (t : Table) (ps1 : List ProcState) (v : Int) (ps2 : List ProcState),
      v < 0 →
      CStep area now
        ⟨t, ps1 ++ ProcState.added v :: ps2⟩
        ⟨(updateItem t (pkOf area) exprZeroCount).1, ps1 ++ ps2⟩

/-- Number of in-flight calls that have not yet executed their update. -/
def countNS (ps : List ProcState) : Nat :=
  ps.countP fun p => match p with | ProcState.notStarted _ => true | _ => false

/-- A seeded metadata item as written by create_area / init_database. -/
def seedItem (aid nm : String) (cap cnt : Int) (now : String) : Item :=
  ⟨some aid, some nm, some cnt, some cap, some true, some now, some now, none⟩

/-- A seeded table: weight-room at count 0 (capacity 100). -/
def seedT0 : Table := [(pkOf "weight-room", seedItem "weight-room" "Weight Room" 100 0 "t0")]

/-- A seeded table: weight-room at count 3. -/
def seedT3 : Table := [(pkOf "weight-room", seedItem "weight-room" "Weight Room" 100 3 "t0")]

/-- A seeded table: pool at count 7. -/
def seedT7 : Table := [(pkOf "pool", seedItem "pool" "Swimming Pool" 40 7 "t0")]

/-- A seeded table: weight-room at count 2 with update_count 5. -/
def seedT5 : Table :=
  [(pkOf "weight-room",
    ⟨some "weight-room", some "Weight Room", some 2, some 100, some true,
     some "t0", some "t0", some 5⟩)]

/-- Invariant of the concurrency model for N increment-by-one calls
started from count 0: the stored count equals the number of calls that
have executed their atomic update, every pending call is an increment by
one, and every call that has executed observed a positive count (so its
corrective clamp write never fires). -/
def ConcInv (area : String) (N : Nat) (s : ConcState) : Prop :=
  countNS s.procs ≤ N ∧
  storedCount s.table area = some ((N : Int) - (countNS s.procs : Int)) ∧
  ∀ p ∈ s.procs, p = ProcState.notStarted 1 ∨
    ∃ v : Int, p = ProcState.added v ∧ 1 ≤ v

/-- PutItem stores the item at its key. -/
theorem lookupItem_putItem_self (t : Table) (k : String) (it : Item) :
    lookupItem (putItem t k it) k = some it := by
  induction t with
  | nil => simp [putItem, lookupItem]
  | cons kv rest ih =>
      obtain ⟨k2, it2⟩ := kv
      by_cases h : k = k2
      · simp [putItem, lookupItem, h]
      · simp [putItem, lookupItem, h, ih]

/-- The ALL_NEW item stored by UpdateItem. -/
theorem lookupItem_updateItem (t : Table) (k : String) (f : Item → Item) :
    lookupItem (updateItem t k f).1 k = some (f ((lookupItem t k).getD emptyItem)) := by
  simp [updateItem, lookupItem_putItem_self]

theorem updateItem_snd (t : Table) (k : String) (f : Item → Item) :
    (updateItem t k f).2 = f ((lookupItem t k).getD emptyItem) := rfl

/-- `if_not_exists(current_count, 0)` reads 0 whether the item or only the
attribute is missing. -/
theorem getD_count (o : Option Item) :
    ((o.getD emptyItem).current_count).getD 0 = (o.bind Item.current_count).getD 0 := by
  cases o <;> rfl

theorem getD_seq (o : Option Item) :
    ((o.getD emptyItem).update_count).getD 0 = (o.bind Item.update_count).getD 0 := by
  cases o <;> rfl

/-- Effect of one Lambda `apply` call on the stored count: it becomes the
clamped value `max 0 (previous + increment)`, where a missing count reads
as 0. -/
theorem storedCount_lambda_update (t : Table) (area action : String) (count : Int)
    (now : String) :
    storedCount (CapacityUpdater.update_capacity t area action count now).1 area
      = some (max 0 ((storedCount t area).getD 0
          + (if action = "enter" then count else -count))) := by
  simp only [storedCount]
  have hobs : (updateItem t (pkOf area)
      (exprAddCountBumpSeq (if action = "enter" then count else -count) now)).2.current_count
        = some (((lookupItem t (pkOf area)).bind Item.current_count).getD 0
            + (if action = "enter" then count else -count)) := by
    rw [updateItem_snd]
    simp [exprAddCountBumpSeq, getD_count]
  simp only [CapacityUpdater.update_capacity, hobs]
  by_cases hneg : ((lookupItem t (pkOf area)).bind Item.current_count).getD 0
      + (if action = "enter" then count else -count) < 0
  · rw [if_pos (by simpa using hneg)]
    rw [lookupItem_updateItem]
    simp [exprZeroCount]
    omega
  · rw [if_neg (by simpa using hneg)]
    rw [lookupItem_updateItem]
    simp [exprAddCountBumpSeq, getD_count]
    omega

/-- Effect of one Lambda `apply` call on the stored `update_count`: it is
incremented by exactly one (also on the clamping path, whose corrective
write leaves it alone), where a missing counter reads as 0. -/
theorem storedSeq_lambda_update (t : Table) (area action : String) (count : Int)
    (now : String) :
    storedSeq (CapacityUpdater.update_capacity t area action count now).1 area
      = some ((storedSeq t area).getD 0 + 1) := by
  simp only [CapacityUpdater.update_capacity, storedSeq]
  by_cases hneg : (updateItem t (pkOf area)
      (exprAddCountBumpSeq (if action = "enter" then count else -count) now)).2.current_count.getD 0 < 0
  · rw [if_pos hneg, lookupItem_updateItem, lookupItem_updateItem]
    simp [exprZeroCount, exprAddCountBumpSeq, getD_seq, storedSeq]
  · rw [if_neg hneg, lookupItem_updateItem]
    simp [exprAddCountBumpSeq, getD_seq, storedSeq]

/-- Effect of `set_capacity` on the stored count: it becomes `max 0 v`. -/
theorem storedCount_set_capacity (t : Table) (area : String) (v : Int) (now : String) :
    storedCount (DynamoDBManager.set_capacity t area v now).1 area = some (max 0 v) := by
  simp only [DynamoDBManager.set_capacity, storedCount]
  rw [lookupItem_updateItem]
  simp [exprSetCount]

/-- `set_capacity` leaves the stored `update_count` unchanged. -/
theorem storedSeq_set_capacity (t : Table) (area : String) (v : Int) (now : String) :
    storedSeq (DynamoDBManager.set_capacity t area v now).1 area = storedSeq t area := by
  simp only [DynamoDBManager.set_capacity, storedSeq]
  rw [lookupItem_updateItem]
  cases h : lookupItem t (pkOf area) <;> simp [exprSetCount, h, emptyItem]

/-- Effect of the FastAPI-path `update_capacity` on the stored count:
the increment is 1 for enter and -1 for anything else, then the clamp. -/
theorem storedCount_manager_update (t : Table) (area action : String) (now now2 : String) :
    storedCount (DynamoDBManager.update_capacity t area action now now2).1 area
      = some (max 0 ((storedCount t area).getD 0
          + (if action = "enter" then 1 else -1))) := by
  set inc : Int := if action = "enter" then 1 else -1 with hinc
  have hobs : (updateItem t (pkOf area) (exprAddCount inc now)).2.current_count
        = some (((lookupItem t (pkOf area)).bind Item.current_count).getD 0 + inc) := by
    rw [updateItem_snd]
    simp [exprAddCount, getD_count]
  simp only [DynamoDBManager.update_capacity, ← hinc, hobs]
  by_cases hneg : ((lookupItem t (pkOf area)).bind Item.current_count).getD 0 + inc < 0
  · rw [if_pos (by simpa using hneg)]
    rw [storedCount_set_capacity]
    simp only [storedCount]
    rw [sup_idem, sup_eq_left.mpr (le_of_lt hneg)]
  · rw [if_neg (by simpa using hneg)]
    simp only [storedCount]
    rw [lookupItem_updateItem]
    simp [exprAddCount, getD_count]
    omega

/-- After any single completed Core call the stored count is non-negative. -/
theorem runOp_nonneg (area now : String) (op : CoreOp) (t : Table) :
    ∀ c : Int, storedCount (runOp area now t op) area = some c → 0 ≤ c := by
  intro c hc
  cases op with
  | applyOp action count =>
      rw [runOp, storedCount_lambda_update] at hc
      injection hc with hc
      omega
  | setOp v =>
      rw [runOp, storedCount_set_capacity] at hc
      injection hc with hc
      omega

/-- Non-negativity after every prefix of a sequence of Core calls. -/
theorem runOps_take_nonneg (area now : String) : ∀ (ops : List CoreOp) (t : Table),
    (∀ c : Int, storedCount t area = some c → 0 ≤ c) →
    ∀ (n : Nat) (c : Int),
      storedCount (runOps area now t (ops.take n)) area = some c → 0 ≤ c := by
  intro ops
  induction ops with
  | nil =>
      intro t ht n c hc
      rw [List.take_nil] at hc
      exact ht c hc
  | cons op rest ih =>
      intro t ht n c
      match n with
      | 0 => exact ht c
      | Nat.succ m =>
          rw [List.take_succ_cons]
          have step := runOp_nonneg area now op t
          exact ih (runOp area now t op) step m c

/-- C1: applying any delta stores `max 0 (previous + delta)`; in
particular an exit of 10 from count 3 stores 0, not -7.  The delta of an
`apply` is `+count` for action "enter" and `-count` otherwise
(capacity_updater.py line 132), and the clamp is the conditional
corrective write of lines 158-167. -/
theorem apply_stores_clamped_sum (t : Table) (area action : String) (count c : Int)
    (now : String) (h : storedCount t area = some c) :
    storedCount (CapacityUpdater.update_capacity t area action count now).1 area
      = some (max 0 (c + (if action = "enter" then count else -count))) := by
  rw [storedCount_lambda_update, h]
  rfl

/-- Witness for C1: starting from count 3, an exit of 10 stores 0. -/
theorem apply_stores_clamped_sum_witness :
    storedCount (CapacityUpdater.update_capacity seedT3 "weight-room" "exit" 10 "t1").1
      "weight-room" = some 0 := by
  have h := apply_stores_clamped_sum seedT3 "weight-room" "exit" 10 3 "t1" (by decide)
  simpa using h

/-- C2: over any sequence of `apply` and `set` calls on one area, started
from a state whose stored count is non-negative, the stored count is
non-negative after every completed call (every prefix of the sequence). -/
theorem core_count_nonneg (t : Table) (area now : String) (ops : List CoreOp)
    (c0 : Int) (h0 : storedCount t area = some c0) (hc0 : 0 ≤ c0) :
    ∀ (n : Nat) (c : Int),
      storedCount (runOps area now t (ops.take n)) area = some c → 0 ≤ c := by
  refine runOps_take_nonneg area now ops t ?_
  intro c hc
  rw [h0] at hc
  injection hc with hc
  omega

/-- Witness for C2: from count 3, an exit of 10 followed by a set to -4
leaves the stored count at 0 after the second call, and 0 is
non-negative. -/
theorem core_count_nonneg_witness :
    0 ≤ (0 : Int) ∧
    storedCount (runOps "weight-room" "t1" seedT3
      ([CoreOp.applyOp "exit" 10, CoreOp.setOp (-4),
        CoreOp.applyOp "enter" 2].take 2)) "weight-room" = some 0 :=
  ⟨core_count_nonneg seedT3 "weight-room" "t1"
      [CoreOp.applyOp "exit" 10, CoreOp.setOp (-4), CoreOp.applyOp "enter" 2] 3
      (by decide) (by decide) 2 0 (by decide),
   by decide⟩

/-- C3 (code bug): at the failing input — seeded table without
"nonexistent" — `read` does report not-found, but `apply` through the
manager does not: the DynamoDB upsert creates a partial item (count 1, no
metadata attributes) and the method then raises KeyError('area_id')
instead of returning None as its docstring promises; the Lambda `apply`
likewise creates the partial state and even reports success.  New state is
created where the claim requires a safe no-op. -/
theorem unknown_area_apply_creates_state :
    DynamoDBManager.get_area seedT0 "nonexistent" "t1" = DbResult.notFound
    ∧ lookupItem seedT0 (pkOf "nonexistent") = none
    ∧ (DynamoDBManager.update_capacity seedT0 "nonexistent" "enter" "t1" "t2").2
        = DbResult.error "KeyError: area_id"
    ∧ storedCount
        (DynamoDBManager.update_capacity seedT0 "nonexistent" "enter" "t1" "t2").1
        "nonexistent" = some 1
    ∧ storedCount (CapacityUpdater.update_capacity seedT0 "nonexistent" "enter" 1 "t1").1
        "nonexistent" = some 1
    ∧ (CapacityUpdater.update_capacity seedT0 "nonexistent" "enter" 1 "t1").2.current_count
        = some 1 := by
  decide

/-- C4 (amended): the Lambda adapter maps an event to delta `+count` for
"enter" and `-count` for "exit" and applies it; the FastAPI adapter
(`POST /api/update` → `DynamoDBManager.update_capacity`) ignores the
event's `count` field and always applies delta +1 for "enter" and -1 for
"exit". -/
theorem adapter_delta_mapping (t : Table) (area : String) (count c : Int)
    (now now2 : String) (h : storedCount t area = some c) :
    (storedCount (CapacityUpdater.update_capacity t area "enter" count now).1 area
        = some (max 0 (c + count))
     ∧ storedCount (CapacityUpdater.update_capacity t area "exit" count now).1 area
        = some (max 0 (c - count)))
    ∧ (storedCount (Main.update_capacity t ⟨area, "enter", count, none⟩ now now2).1 area
        = some (max 0 (c + 1))
     ∧ storedCount (Main.update_capacity t ⟨area, "exit", count, none⟩ now now2).1 area
        = some (max 0 (c - 1))) := by
  refine ⟨⟨?_, ?_⟩, ?_, ?_⟩
  · rw [storedCount_lambda_update, h]
    norm_num
  · rw [storedCount_lambda_update, h]
    simp [sub_eq_add_neg]
  · simp [Main.update_capacity, storedCount_manager_update, h]
  · simp [Main.update_capacity, storedCount_manager_update, h, sub_eq_add_neg]

/-- Witness for C4: from count 3, the Lambda enter-by-2 stores 5 while the
FastAPI path with the same event stores 4. -/
theorem adapter_delta_mapping_witness :
    storedCount (CapacityUpdater.update_capacity seedT3 "weight-room" "enter" 2 "t1").1
      "weight-room" = some 5
    ∧ storedCount (Main.update_capacity seedT3
        ⟨"weight-room", "enter", 2, none⟩ "t1" "t2").1 "weight-room" = some 4 := by
  have h := adapter_delta_mapping seedT3 "weight-room" 2 3 "t1" "t2" (by decide)
  exact ⟨by simpa using h.1.1, by simpa using h.2.1⟩

/-- C4 counterexample: a valid event (action "enter", count 3 in [1,10])
sent to the repository's own update endpoint changes the count of a
seeded area at 0 by +1, not by +3. -/
theorem adapter_delta_mapping_counterexample :
    storedCount seedT0 "weight-room" = some 0
    ∧ (Main.update_capacity seedT0 ⟨"weight-room", "enter", 3, none⟩ "t1" "t2").2
        = ApiResult.ok 1
    ∧ storedCount (Main.update_capacity seedT0
        ⟨"weight-room", "enter", 3, none⟩ "t1" "t2").1 "weight-room" = some 1
    ∧ storedCount (Main.update_capacity seedT0
        ⟨"weight-room", "enter", 3, none⟩ "t1" "t2").1 "weight-room" ≠ some 3 := by
  decide

/-- C5 (amended): each Lambda `apply` increments the stored
`update_count` by exactly one — so it strictly increases across Lambda
applies — but `set_capacity` leaves it unchanged, so it does not increase
with every successful mutation. -/
theorem update_sequence_behavior (t : Table) (area action now : String)
    (count s : Int) (h : storedSeq t area = some s) :
    storedSeq (CapacityUpdater.update_capacity t area action count now).1 area
      = some (s + 1)
    ∧ storedSeq (DynamoDBManager.set_capacity t area count now).1 area = some s := by
  constructor
  · rw [storedSeq_lambda_update, h]
    rfl
  · rw [storedSeq_set_capacity, h]

/-- Witness for C5: at update_count 5, a Lambda apply stores 6 while a
set stores 5 unchanged. -/
theorem update_sequence_behavior_witness :
    storedSeq (CapacityUpdater.update_capacity seedT5 "weight-room" "enter" 1 "t1").1
      "weight-room" = some 6
    ∧ storedSeq (DynamoDBManager.set_capacity seedT5 "weight-room" 1 "t1").1
      "weight-room" = some 5 := by
  have h := update_sequence_behavior seedT5 "weight-room" "enter" "t1" 1 5 (by decide)
  exact ⟨by simpa using h.1, h.2⟩

/-- C5 counterexample: a successful `set` mutation (the manager returns a
value) leaves the stored `update_count` at 5, so the sequence observed
across successful mutations is not strictly increasing. -/
theorem update_sequence_behavior_counterexample :
    (DynamoDBManager.set_capacity seedT5 "weight-room" 4 "t1").2.isOk = true
    ∧ storedSeq seedT5 "weight-room" = some 5
    ∧ storedSeq (DynamoDBManager.set_capacity seedT5 "weight-room" 4 "t1").1
        "weight-room" = some 5 := by
  decide

/-- C6 (amended): `create_area` never fails on an existing `area_id` —
its PutItem is unconditional — so it overwrites any existing entry,
resetting the stored occupancy count to 0 and installing the new metadata
item; when the new capacity is positive, it returns the created record. -/
theorem create_area_overwrites (t : Table) (area nm : String) (cap : Int)
    (op : Bool) (now : String) :
    storedCount (DynamoDBManager.create_area t area nm cap op now).1 area = some 0
    ∧ lookupItem (DynamoDBManager.create_area t area nm cap op now).1 (pkOf area)
        = some ⟨some area, some nm, some 0, some cap, some op, some now, some now, none⟩
    ∧ (0 < cap → (DynamoDBManager.create_area t area nm cap op now).2
        = Except.ok ⟨area, nm, 0, cap, op, now⟩) := by
  refine ⟨?_, ?_, fun hc => ?_⟩
  · simp [DynamoDBManager.create_area, storedCount, lookupItem_putItem_self]
  · simp [DynamoDBManager.create_area, lookupItem_putItem_self]
  · simp [DynamoDBManager.create_area, AreaCapacity.make, not_le.mpr hc]

/-- Witness for C6: re-creating the already-seeded "pool" area succeeds
and resets its stored count to 0. -/
theorem create_area_overwrites_witness :
    storedCount (DynamoDBManager.create_area seedT7 "pool" "Swimming Pool" 40 true "t9").1
      "pool" = some 0
    ∧ (DynamoDBManager.create_area seedT7 "pool" "Swimming Pool" 40 true "t9").2
        = Except.ok ⟨"pool", "Swimming Pool", 0, 40, true, "t9"⟩ := by
  have h := create_area_overwrites seedT7 "pool" "Swimming Pool" 40 true "t9"
  exact ⟨h.1, h.2.2 (by norm_num)⟩

/-- C6 counterexample: "pool" already exists at count 7, yet create does
not fail — it returns a record and the existing entry's count is reset to
0 rather than left unchanged. -/
theorem create_area_overwrites_counterexample :
    storedCount seedT7 "pool" = some 7
    ∧ (DynamoDBManager.create_area seedT7 "pool" "Pool Two" 50 true "t9").2.toOption.isSome
        = true
    ∧ storedCount (DynamoDBManager.create_area seedT7 "pool" "Pool Two" 50 true "t9").1
        "pool" = some 0 := by
  decide

/-- C7: `set` stores `max 0 value` — a negative value clamps to 0 — and a
subsequent `read` returns exactly that clamped value (for an area whose
metadata attributes are present, as every seeded area's are). -/
theorem set_then_read_clamped (t : Table) (area aid nm : String) (v m : Int)
    (now now2 : String) (it : Item)
    (h : lookupItem t (pkOf area) = some it)
    (ha : it.area_id = some aid) (hn : it.name = some nm)
    (hm : it.max_capacity = some m) (hmp : 0 < m) :
    storedCount (DynamoDBManager.set_capacity t area v now).1 area = some (max 0 v)
    ∧ DynamoDBManager.get_area (DynamoDBManager.set_capacity t area v now).1 area now2
        = DbResult.ok ⟨aid, nm, max 0 v, m, it.is_open.getD true, now⟩ := by
  have h1 : ¬ (max 0 v < 0) := not_lt.mpr (le_max_left 0 v)
  have h2 : ¬ (m ≤ 0) := not_le.mpr hmp
  refine ⟨storedCount_set_capacity t area v now, ?_⟩
  simp only [DynamoDBManager.get_area, DynamoDBManager.set_capacity]
  rw [lookupItem_updateItem, h]
  simp [exprSetCount, buildAreaCapacity, getAttr, ha, hn, hm, AreaCapacity.make,
    Except.toDbResult, h1, h2, bind, Except.bind]

/-- Witness for C7: setting the seeded "pool" (count 7) to -5 stores 0
and a subsequent read returns count 0. -/
theorem set_then_read_clamped_witness :
    storedCount (DynamoDBManager.set_capacity seedT7 "pool" (-5) "t1").1 "pool" = some 0
    ∧ DynamoDBManager.get_area (DynamoDBManager.set_capacity seedT7 "pool" (-5) "t1").1
        "pool" "t2" = DbResult.ok ⟨"pool", "Swimming Pool", 0, 40, true, "t1"⟩ := by
  have h := set_then_read_clamped seedT7 "pool" "pool" "Swimming Pool" (-5) 40 "t1" "t2"
    (seedItem "pool" "Swimming Pool" 40 7 "t0") (by decide) (by decide) (by decide)
    (by decide) (by norm_num)
  exact ⟨by simpa using h.1, by simpa [seedItem] using h.2⟩

/-- C9: when the read-all query yields no areas, `GET /api/capacity`
returns the fixed fabricated list of six mock areas — non-empty,
hard-coded non-zero counts, headed by weight-room at 45/100 — in the same
shape as real data. -/
theorem empty_db_returns_mock (t : Table) (nowDb nowMock : String)
    (h : DynamoDBManager.get_all_areas t nowDb = []) :
    (Main.get_all_capacity t nowDb nowMock).areas = Main.get_mock_capacity_data nowMock
    ∧ (Main.get_all_capacity t nowDb nowMock).areas.length = 6
    ∧ (Main.get_all_capacity t nowDb nowMock).areas ≠ []
    ∧ (Main.get_all_capacity t nowDb nowMock).areas.head? =
        some ⟨"weight-room", "Weight Room", 45, 100, true, nowMock⟩
    ∧ ∀ a ∈ (Main.get_all_capacity t nowDb nowMock).areas, a.current_count ≠ 0 := by
  have hx : (Main.get_all_capacity t nowDb nowMock).areas
      = Main.get_mock_capacity_data nowMock := by
    simp [Main.get_all_capacity, h]
  refine ⟨hx, ?_, ?_, ?_, ?_⟩
  · rw [hx]; rfl
  · rw [hx]; simp [Main.get_mock_capacity_data]
  · rw [hx]; rfl
  · rw [hx]
    intro a haMem
    simp only [Main.get_mock_capacity_data, List.mem_cons, List.not_mem_nil,
      or_false] at haMem
    rcases haMem with rfl | rfl | rfl | rfl | rfl | rfl <;> norm_num

/-- Witness for C9: on the empty table the endpoint returns the six mock
areas headed by weight-room at 45. -/
theorem empty_db_returns_mock_witness :
    (Main.get_all_capacity ([] : Table) "t1" "t2").areas.length = 6
    ∧ (Main.get_all_capacity ([] : Table) "t1" "t2").areas.head? =
        some ⟨"weight-room", "Weight Room", 45, 100, true, "t2"⟩ := by
  have h := empty_db_returns_mock ([] : Table) "t1" "t2" (by decide)
  exact ⟨h.2.1, h.2.2.2.1⟩

/-- C10: a successful reset reports the raw requested value as
`new_count` while storing the clamped `max 0 value`; for a negative value
the stored count (0) and the reported `new_count` (negative) disagree. -/
theorem reset_reports_raw_value (t : Table) (area aid nm : String) (v m : Int)
    (now now2 : String) (it : Item)
    (h : lookupItem t (pkOf area) = some it)
    (ha : it.area_id = some aid) (hn : it.name = some nm)
    (hm : it.max_capacity = some m) (hmp : 0 < m) :
    (Main.reset_area_capacity t area v now now2).2 = ApiResult.ok ⟨true, area, v, now2⟩
    ∧ storedCount (Main.reset_area_capacity t area v now now2).1 area = some (max 0 v)
    ∧ (∀ c : Int, storedCount (Main.reset_area_capacity t area v now now2).1 area
        = some c → v < 0 → v ≠ c) := by
  have h1 : ¬ (max 0 v < 0) := not_lt.mpr (le_max_left 0 v)
  have h2 : ¬ (m ≤ 0) := not_le.mpr hmp
  have hset : storedCount (Main.reset_area_capacity t area v now now2).1 area
      = some (max 0 v) := by
    simp only [Main.reset_area_capacity]
    exact storedCount_set_capacity t area v now
  refine ⟨?_, hset, ?_⟩
  · simp only [Main.reset_area_capacity, DynamoDBManager.set_capacity]
    rw [updateItem_snd, h]
    simp [exprSetCount, buildAreaCapacity, getAttr, ha, hn, hm, AreaCapacity.make,
      Except.toDbResult, h1, h2, bind, Except.bind]
  · intro c hc hv
    rw [hset] at hc
    injection hc with hc
    omega

/-- Witness for C10: resetting the seeded "pool" to -5 responds with
new_count -5 while storing 0, and -5 differs from the stored 0. -/
theorem reset_reports_raw_value_witness :
    (Main.reset_area_capacity seedT7 "pool" (-5) "t1" "t2").2
        = ApiResult.ok ⟨true, "pool", -5, "t2"⟩
    ∧ storedCount (Main.reset_area_capacity seedT7 "pool" (-5) "t1" "t2").1 "pool"
        = some 0
    ∧ (-5 : Int) ≠ 0 := by
  have h := reset_reports_raw_value seedT7 "pool" "pool" "Swimming Pool" (-5) 40
    "t1" "t2" (seedItem "pool" "Swimming Pool" 40 7 "t0") (by decide) (by decide)
    (by decide) (by decide) (by norm_num)
  refine ⟨h.1, by simpa using h.2.1, ?_⟩
  exact h.2.2 0 (by simpa using h.2.1) (by norm_num)

theorem countNS_append (l1 l2 : List ProcState) :
    countNS (l1 ++ l2) = countNS l1 + countNS l2 := by
  simp [countNS, List.countP_append]

theorem countNS_cons_ns (d : Int) (l : List ProcState) :
    countNS (ProcState.notStarted d :: l) = countNS l + 1 := by
  simp [countNS, List.countP_cons]

theorem countNS_cons_added (v : Int) (l : List ProcState) :
    countNS (ProcState.added v :: l) = countNS l := by
  simp [countNS, List.countP_cons]

theorem countNS_replicate (n : Nat) (d : Int) :
    countNS (List.replicate n (ProcState.notStarted d)) = n := by
  induction n with
  | zero => rfl
  | succ m ih => simp [List.replicate_succ, countNS_cons_ns, ih]

/-- The count observed by a call's atomic add is the previous stored
count (0 when missing) plus its delta. -/
theorem observed_add (t : Table) (area now : String) (d : Int) :
    (updateItem t (pkOf area) (exprAddCountBumpSeq d now)).2.current_count.getD 0
      = (storedCount t area).getD 0 + d := by
  rw [updateItem_snd]
  simp [exprAddCountBumpSeq, getD_count, storedCount]

/-- The stored count after a call's atomic add. -/
theorem storedCount_add (t : Table) (area now : String) (d : Int) :
    storedCount (updateItem t (pkOf area) (exprAddCountBumpSeq d now)).1 area
      = some ((storedCount t area).getD 0 + d) := by
  simp only [storedCount]
  rw [lookupItem_updateItem]
  simp [exprAddCountBumpSeq, getD_count]

/-- The invariant is preserved by every interleaved atomic step. -/
theorem ConcInv_step (area now : String) (N : Nat) (s s2 : ConcState)
    (hs : CStep area now s s2) (h : ConcInv area N s) : ConcInv area N s2 := by
  obtain ⟨hle, hcount, hmem⟩ := h
  cases hs with
  | start t ps1 ps2 d =>
      have hd : d = 1 := by
        have hin := hmem (ProcState.notStarted d) (by simp)
        rcases hin with h1 | ⟨v, h1, -⟩
        · injection h1
        · cases h1
      subst hd
      rw [countNS_append, countNS_cons_ns] at hle hcount
      refine ⟨?_, ?_, ?_⟩
      · rw [countNS_append, countNS_cons_added]
        omega
      · rw [storedCount_add, hcount]
        rw [countNS_append, countNS_cons_added]
        simp only [Option.getD_some, Option.some.injEq]
        push_cast
        ring
      · intro p hp
        rcases List.mem_append.mp hp with hp1 | hp2
        · exact hmem p (by simp [hp1])
        · rcases List.mem_cons.mp hp2 with rfl | hp3
          · right
            refine ⟨_, rfl, ?_⟩
            rw [observed_add, hcount]
            simp only [Option.getD_some]
            omega
          · exact hmem p (by simp [hp3])
  | finishOk t ps1 v ps2 hv =>
      rw [countNS_append, countNS_cons_added] at hle hcount
      refine ⟨?_, ?_, ?_⟩
      · rw [countNS_append]
        omega
      · rw [countNS_append]
        exact hcount
      · intro p hp
        rcases List.mem_append.mp hp with hp1 | hp2
        · exact hmem p (by simp [hp1])
        · exact hmem p (by simp [hp2])
  | finishClamp t ps1 v ps2 hv =>
      have hin := hmem (ProcState.added v) (by simp)
      rcases hin with h1 | ⟨w, h1, hw⟩
      · cases h1
      · injection h1 with h1
        omega

/-- The invariant holds in every reachable state. -/
theorem ConcInv_reach (area now : String) (N : Nat) (s s2 : ConcState)
    (hr : Relation.ReflTransGen (CStep area now) s s2) (h : ConcInv area N s) :
    ConcInv area N s2 := by
  induction hr with
  | refl => exact h
  | tail _ hstep ih => exact ConcInv_step area now N _ _ hstep ih

/-- C8: N concurrent apply(+1) calls on one area, started from stored
count 0, leave the stored count at exactly N once all calls have
finished, under every interleaving of their atomic DynamoDB operations —
no lost updates.  (With +1 deltas every call observes a positive count,
so the clamp's corrective write never executes and never races.) -/
theorem concurrent_increments_exact (area now : String) (N : Nat) (t0 : Table)
    (s : ConcState) (h0 : storedCount t0 area = some 0)
    (hreach : Relation.ReflTransGen (CStep area now)
      ⟨t0, List.replicate N (ProcState.notStarted 1)⟩ s)
    (hdone : s.procs = []) :
    storedCount s.table area = some (N : Int) := by
  have hinit : ConcInv area N ⟨t0, List.replicate N (ProcState.notStarted 1)⟩ := by
    refine ⟨?_, ?_, ?_⟩
    · simp [countNS_replicate]
    · simp only [countNS_replicate]
      rw [h0]
      simp
    · intro p hp
      left
      exact List.eq_of_mem_replicate hp
  have hfin := ConcInv_reach area now N _ _ hreach hinit
  obtain ⟨-, hcount, -⟩ := hfin
  rw [hdone] at hcount
  simpa [countNS] using hcount

/-- Witness for C8: two concurrent increments on the seeded area at count
0, interleaved as add A, add B, finish A, finish B, end with stored count
2. -/
theorem concurrent_increments_exact_witness :
    storedCount (updateItem (updateItem seedT0 (pkOf "weight-room")
        (exprAddCountBumpSeq 1 "t1")).1 (pkOf "weight-room")
        (exprAddCountBumpSeq 1 "t1")).1 "weight-room" = some 2 := by
  have hreach : Relation.ReflTransGen (CStep "weight-room" "t1")
      ⟨seedT0, List.replicate 2 (ProcState.notStarted 1)⟩
      ⟨(updateItem (updateItem seedT0 (pkOf "weight-room")
          (exprAddCountBumpSeq 1 "t1")).1 (pkOf "weight-room")
          (exprAddCountBumpSeq 1 "t1")).1, []⟩ := by
    refine Relation.ReflTransGen.head
      (CStep.start seedT0 [] [ProcState.notStarted 1] 1) ?_
    refine Relation.ReflTransGen.head
      (CStep.start _ [ProcState.added 1] [] 1) ?_
    refine Relation.ReflTransGen.head
      (CStep.finishOk _ [] 1 [ProcState.added 2] (by norm_num)) ?_
    refine Relation.ReflTransGen.head
      (CStep.finishOk _ [] 2 [] (by norm_num)) ?_
    exact Relation.ReflTransGen.refl
  have h := concurrent_increments_exact "weight-room" "t1" 2 seedT0 _
    (by decide) hreach rfl
  simpa using h
